import Mathlib

/-!
Shallow embedding of the instrumentation-and-transaction layer of
auto-program/db-orm (src/orm/db.go): the `DBStore` connection executor,
the `DBTx` transaction executor, and the `TracedDB` tracing decorator,
together with the commit/rollback decision made at transaction close.

Machine effects outside the layer are modelled explicitly:
 - the Go `context.Context` contract (`Done` closed exactly when `Err()`
   is non-nil for standard contexts) as `GoContext`;
 - the `database/sql.Tx` lifecycle (first `Commit`/`Rollback` marks the
   transaction done; every later `Commit`/`Rollback`/`Query`/`Exec` on it
   fails with `ErrTxDone`) as `SqlTx`;
 - driver replies to individual query/exec calls, and measured wall-clock
   durations, are inputs of each modelled call (the layer treats both as
   opaque data coming back from the environment).
-/

namespace DbOrm

/-- Go `error` values that appear in this development.  `errTxDone` models
`database/sql.ErrTxDone`; `canceled` and `deadlineExceeded` model the two
errors a done `context.Context` reports; `driverError` is an opaque
driver-reported statement failure. -/
inductive GoError where
  | errTxDone : GoError
  | canceled : GoError
  | deadlineExceeded : GoError
  | driverError : Nat → GoError
  deriving DecidableEq, Repr

/-- A nilable Go `error`: `none` is Go `nil`. -/
abbrev GoErr := Option GoError

/-- Model of the Go `context.Context` contract relevant to db.go: reading
the `Done` channel tells whether the context is cancelled or past its
deadline, and `Err()` returns a non-nil error exactly when `Done` is
closed (`doneErr` is that error, `context.Canceled` or
`context.DeadlineExceeded` for standard contexts). -/
structure GoContext where
  done : Bool
  doneErr : GoError
  deriving DecidableEq, Repr

/-- `context.Context.Err()`: non-nil exactly when the context is done. -/
def GoContext.err (c : GoContext) : GoErr :=
  if c.done then some c.doneErr else none

/-- A possibly-nil context value, as stored in `DBTx.Ctx`. -/
abbrev OptCtx := Option GoContext

/-- `true` when a non-nil context is attached and its `Done` channel is
closed (the `select`/`default` read in `DBTx.Close`). -/
def ctxIsDone : OptCtx → Bool
  | none => false
  | some c => c.done

/-- Terminal actions issued to the underlying `database/sql.Tx`. -/
inductive TxOp where
  | committed : TxOp
  | rolledBack : TxOp
  deriving DecidableEq, Repr

/-- Model of the `database/sql.Tx` lifecycle (external collaborator of
db.go, with its documented semantics): `done` is set by the first
`Commit` or `Rollback`; afterwards every `Commit`, `Rollback`, `Query`
and `Exec` on the transaction fails with `ErrTxDone` and performs no
further terminal action.  `finalOps` records the terminal actions
actually performed, in order. -/
structure SqlTx where
  done : Bool
  finalOps : List TxOp
  deriving DecidableEq, Repr

/-- `sql.Tx.Commit`: fails with `ErrTxDone` on a done transaction;
otherwise marks the transaction done and commits. -/
def SqlTx.commit (t : SqlTx) : SqlTx × GoErr :=
  if t.done then (t, some GoError.errTxDone)
  else ({ done := true, finalOps := t.finalOps ++ [TxOp.committed] }, none)

/-- `sql.Tx.Rollback`: fails with `ErrTxDone` on a done transaction;
otherwise marks the transaction done and rolls back. -/
def SqlTx.rollback (t : SqlTx) : SqlTx × GoErr :=
  if t.done then (t, some GoError.errTxDone)
  else ({ done := true, finalOps := t.finalOps ++ [TxOp.rolledBack] }, none)

/-- `sql.Tx.Query`/`Exec`/`QueryContext`/`ExecContext`: on a done
transaction the call fails with `ErrTxDone` before reaching the driver;
otherwise the driver's reply `reply` (possibly a cancellation error when
the attached context fires mid-call) is returned. -/
def SqlTx.call (t : SqlTx) (reply : GoErr) : GoErr :=
  if t.done then some GoError.errTxDone else reply

/-- Log lines emitted by the shared logging policy of db.go:
`debugLine sql` is the `DEBUG:` line, `slowLine dur sql` the `SLOW:`
line tagged with the measured duration. -/
inductive LogLine where
  | debugLine : String → LogLine
  | slowLine : Int → String → LogLine
  deriving DecidableEq, Repr

/-- Whether a log line is a `SLOW:` line. -/
def LogLine.isSlow : LogLine → Bool
  | LogLine.debugLine _ => false
  | LogLine.slowLine _ _ => true

/-- Whether any `SLOW:` line occurs in an emitted log. -/
def hasSlow (ls : List LogLine) : Bool :=
  ls.any LogLine.isSlow

/-- The slow-query policy shared by every `Query`/`Exec` in db.go: inside
`if slowlog > 0 { defer ... }` the deferred closure logs a `SLOW:` line
when the measured span strictly exceeds the threshold.  `slowlog` and
`dur` are `time.Duration` values in nanoseconds (`Int`). -/
def slowLogLines (slowlog dur : Int) (sql : String) : List LogLine :=
  if slowlog > 0 then
    (if dur > slowlog then [LogLine.slowLine dur sql] else [])
  else []

/-- The debug policy shared by every `Query`/`Exec` in db.go. -/
def debugLogLines (debug : Bool) (sql : String) : List LogLine :=
  if debug then [LogLine.debugLine sql] else []

/-- Model of the underlying `*sql.DB` pool handle held by a `DBStore`.
`closeErr` is the error the pool's own `Close` reports. -/
structure SqlDB where
  closeErr : GoErr
  deriving DecidableEq, Repr

/-- `DBStore` from db.go: embeds the `*sql.DB` handle (`none` once the
store's `Close` has cleared it), a debug flag, and the slow-query
threshold. -/
structure DBStore where
  DB : Option SqlDB
  debug : Bool
  slowlog : Int
  deriving DecidableEq, Repr

/-- Outcome of `DBStore.Close`: either the method returns (possibly with
an error), or it panics with a nil-pointer dereference because the
embedded `*sql.DB` was already cleared by a previous `Close` (calling
`(*sql.DB).Close` on a nil receiver dereferences its mutex). -/
inductive CloseOutcome where
  | ret : DBStore → GoErr → CloseOutcome
  | nilPanic : CloseOutcome
  deriving DecidableEq, Repr

/-- `DBStore.Close` from db.go: calls `store.DB.Close()`; on success it
clears the handle (`store.DB = nil`) and returns nil; on failure the
handle is left in place and the error returned.  With an already-cleared
handle the call panics. -/
def DBStore.Close (store : DBStore) : CloseOutcome :=
  match store.DB with
  | none => CloseOutcome.nilPanic
  | some db =>
    match db.closeErr with
    | some e => CloseOutcome.ret store (some e)
    | none => CloseOutcome.ret { store with DB := none } none

/-- Result of a `DBStore.Query`/`Exec` call: the error returned to the
caller and the log lines emitted.  The row/result handles coming back
from the pool are opaque to this layer and are not modelled; the `reply`
input carries the pool's error for this call.  A store whose handle was
cleared by `Close` would panic at the forwarding call — that invalidation
is covered by `DBStore.Close`. -/
structure StoreCallOut where
  err : GoErr
  logs : List LogLine
  deriving DecidableEq, Repr

/-- `DBStore.Query` from db.go: registers the slow-log deferred closure
when the threshold is positive, emits the `DEBUG:` line when the debug
flag is set, and forwards to the pool.  `dur` is the measured wall-clock
span observed by the deferred closure. -/
def DBStore.Query (store : DBStore) (sql : String) (dur : Int) (reply : GoErr) :
    StoreCallOut :=
  { err := reply
    logs := debugLogLines store.debug sql ++ slowLogLines store.slowlog dur sql }

/-- `DBStore.Exec` from db.go: same logging policy and forwarding shape
as `DBStore.Query`. -/
def DBStore.Exec (store : DBStore) (sql : String) (dur : Int) (reply : GoErr) :
    StoreCallOut :=
  { err := reply
    logs := debugLogLines store.debug sql ++ slowLogLines store.slowlog dur sql }

/-- `DBStore.SetError` from db.go: an empty body, no state touched. -/
def DBStore.SetError (store : DBStore) (e : GoErr) : DBStore :=
  let _ := e
  store

/-- `DBTx` from db.go: the underlying `sql.Tx`, the debug flag and
slow-query threshold inherited from the store at begin time, the
last-recorded error, the (never-written) `rowsAffected` field, and the
attached context. -/
structure DBTx where
  tx : SqlTx
  debug : Bool
  slowlog : Int
  err : GoErr
  rowsAffected : Int
  Ctx : OptCtx
  deriving DecidableEq, Repr

/-- `DBStore.BeginTx` from db.go (success path): the new `DBTx` snapshots
the store's debug flag and threshold, carries the given context, and its
`err` and `rowsAffected` fields start at their zero values; `store.Begin`
hands over a fresh, not-yet-done `sql.Tx`. -/
def DBStore.BeginTx (store : DBStore) (ctx : OptCtx) : DBTx :=
  { tx := { done := false, finalOps := [] }
    debug := store.debug
    slowlog := store.slowlog
    err := none
    rowsAffected := 0
    Ctx := ctx }

/-- Result of a `DBTx.Query`/`Exec` call: the updated transaction state,
the error returned to the caller, and the log lines emitted.  As for the
store, the row/result handles are opaque and `reply` carries the
environment's answer for this call. -/
structure TxCallOut where
  tx : DBTx
  err : GoErr
  logs : List LogLine
  deriving DecidableEq, Repr

/-- `DBTx.Query` from db.go: logging policy as for the store; then, with
a non-nil context, `QueryContext` on the underlying transaction,
otherwise plain `Query`; either way the call's error is assigned to
`tx.err` (overwriting whatever was recorded before) and returned. -/
def DBTx.Query (tx : DBTx) (sql : String) (dur : Int) (reply : GoErr) :
    TxCallOut :=
  let logs := debugLogLines tx.debug sql ++ slowLogLines tx.slowlog dur sql
  match tx.Ctx with
  | some _ =>
    let e := tx.tx.call reply
    { tx := { tx with err := e }, err := e, logs := logs }
  | none =>
    let e := tx.tx.call reply
    { tx := { tx with err := e }, err := e, logs := logs }

/-- `DBTx.Exec` from db.go: same shape as `DBTx.Query`; `rowsAffected`
is not touched. -/
def DBTx.Exec (tx : DBTx) (sql : String) (dur : Int) (reply : GoErr) :
    TxCallOut :=
  let logs := debugLogLines tx.debug sql ++ slowLogLines tx.slowlog dur sql
  match tx.Ctx with
  | some _ =>
    let e := tx.tx.call reply
    { tx := { tx with err := e }, err := e, logs := logs }
  | none =>
    let e := tx.tx.call reply
    { tx := { tx with err := e }, err := e, logs := logs }

/-- `DBTx.SetError` from db.go: `tx.err = err`. -/
def DBTx.SetError (tx : DBTx) (e : GoErr) : DBTx :=
  { tx with err := e }

/-- `DBTx.SetContext` from db.go: `tx.Ctx = ctx`. -/
def DBTx.SetContext (tx : DBTx) (c : OptCtx) : DBTx :=
  { tx with Ctx := c }

/-- First phase of `DBTx.Close` from db.go: with a non-nil context, a
non-blocking read of `Ctx.Done()` assigns `Ctx.Err()` to `tx.err` when
the context is done (the `select`/`default` block). -/
def DBTx.closeErrCheck (tx : DBTx) : DBTx :=
  match tx.Ctx with
  | some c => if c.done then { tx with err := c.err } else tx
  | none => tx

/-- `DBTx.Close` from db.go: after the context check, a non-nil `tx.err`
selects `Rollback`, otherwise `Commit`.  Returns the updated transaction
state and the error reported by the terminal action. -/
def DBTx.Close (tx : DBTx) : DBTx × GoErr :=
  let tx1 := tx.closeErrCheck
  if tx1.err.isSome then
    ({ tx1 with tx := (SqlTx.rollback tx1.tx).1 }, (SqlTx.rollback tx1.tx).2)
  else
    ({ tx1 with tx := (SqlTx.commit tx1.tx).1 }, (SqlTx.commit tx1.tx).2)

/-- One caller-visible operation on an open `DBTx`, with the
environment's data for it: the driver reply and measured duration of a
query/exec, the error passed to `SetError`, the context passed to
`SetContext`. -/
inductive TxEvent where
  | query : String → Int → GoErr → TxEvent
  | exec : String → Int → GoErr → TxEvent
  | setError : GoErr → TxEvent
  | setContext : OptCtx → TxEvent
  deriving DecidableEq, Repr

/-- Apply one operation to a `DBTx`, keeping the updated state. -/
def DBTx.step (tx : DBTx) (ev : TxEvent) : DBTx :=
  match ev with
  | TxEvent.query s d r => (tx.Query s d r).tx
  | TxEvent.exec s d r => (tx.Exec s d r).tx
  | TxEvent.setError e => tx.SetError e
  | TxEvent.setContext c => tx.SetContext c

/-- Apply a sequence of operations to a `DBTx`, in order. -/
def DBTx.run (tx : DBTx) (evs : List TxEvent) : DBTx :=
  evs.foldl DBTx.step tx

/-- An event that records no error: a query/exec whose driver reply is
nil, a `SetError` with a nil argument, or a context replacement. -/
def TxEvent.recordsNoError : TxEvent → Bool
  | TxEvent.query _ _ r => r.isNone
  | TxEvent.exec _ _ r => r.isNone
  | TxEvent.setError e => e.isNone
  | TxEvent.setContext _ => true

/-- An arbitrary implementation of the `DB` interface of db.go (`Query`,
`Exec`, `SetError`), with executor state `σ`, query results `ρ` and exec
results `ε`.  Each method maps the current state and arguments to the
updated state and the returned values; this is what the `TracedDB`
decorator wraps. -/
structure DBImpl (σ ρ ε : Type) where
  query : σ → String → List String → σ × ρ × GoErr
  exec : σ → String → List String → σ × ε × GoErr
  setError : σ → GoErr → σ

/-- `TracedDB` from db.go: embeds the wrapped `DB` (its state `σ`) and
the context used to discover parent spans. -/
structure TracedDB (σ : Type) where
  state : σ
  ctx : OptCtx

/-- Observable tracing actions of one `TracedDB.Query`/`Exec` call:
`start op` is `opentracing.StartSpanFromContext` (opening the span named
`op`), `logQueryField` the `sql.query` field tag, `markError`/`logError`
the error tag and structured error log, `finish` the deferred
`span.Finish()`. -/
inductive SpanEvent where
  | start : String → SpanEvent
  | logQueryField : String → SpanEvent
  | markError : SpanEvent
  | logError : GoError → SpanEvent
  | finish : SpanEvent
  deriving DecidableEq, Repr

/-- Whether a span event opens a span. -/
def SpanEvent.isStart : SpanEvent → Bool
  | SpanEvent.start _ => true
  | _ => false

/-- Whether a span event closes a span. -/
def SpanEvent.isFinish : SpanEvent → Bool
  | SpanEvent.finish => true
  | _ => false

/-- `logErrorToSpan` from db.go: tags the span as errored and attaches
the error as a structured log field. -/
def logErrorToSpan (e : GoError) : List SpanEvent :=
  [SpanEvent.markError, SpanEvent.logError e]

/-- `TracedDB.Query` from db.go: opens a span named `DB Query`, tags it
with the statement text and arguments, forwards the call to the wrapped
executor, runs `logErrorToSpan` on a non-nil error, finishes the span
(deferred, so it runs after the error logging), and returns the wrapped
call's result and error unchanged. -/
def TracedDB.Query (impl : DBImpl σ ρ ε) (db : TracedDB σ) (sql : String)
    (args : List String) : TracedDB σ × ρ × GoErr × List SpanEvent :=
  let c := impl.query db.state sql args
  let errEvents :=
    match c.2.2 with
    | some e => logErrorToSpan e
    | none => []
  ({ db with state := c.1 }, c.2.1, c.2.2,
    [SpanEvent.start "DB Query", SpanEvent.logQueryField sql] ++ errEvents
      ++ [SpanEvent.finish])

/-- `TracedDB.Exec` from db.go: same shape as `TracedDB.Query` with the
span named `DB Exec`. -/
def TracedDB.Exec (impl : DBImpl σ ρ ε) (db : TracedDB σ) (sql : String)
    (args : List String) : TracedDB σ × ε × GoErr × List SpanEvent :=
  let c := impl.exec db.state sql args
  let errEvents :=
    match c.2.2 with
    | some e => logErrorToSpan e
    | none => []
  ({ db with state := c.1 }, c.2.1, c.2.2,
    [SpanEvent.start "DB Exec", SpanEvent.logQueryField sql] ++ errEvents
      ++ [SpanEvent.finish])

/-- `TracedDB.SetError` from db.go: the method body is empty — the
wrapped executor's `SetError` is available through `impl` but is not
invoked, the argument is discarded, and no tracing action happens. -/
def TracedDB.SetError (impl : DBImpl σ ρ ε) (db : TracedDB σ) (e : GoErr) :
    TracedDB σ × List SpanEvent :=
  let _ := impl
  let _ := e
  (db, [])

/-- Errors a `DBStore` factory call can report: the `default` branch of
the driver switch, or a failure of `sql.Open` (kept as a distinct
constructor because `sql.Open`'s own errors are opaque to db.go). -/
inductive FactoryErr where
  | unsupportedDriver : String → FactoryErr
  | openFailed : Nat → FactoryErr
  deriving DecidableEq, Repr

/-- The MySQL DSN built by `NewDBStore` (fixed utf8mb4 charset). -/
def mysqlDsn (host : String) (port : Int) (database username password : String) :
    String :=
  username ++ ":" ++ password ++ "@tcp(" ++ host ++ ":" ++ toString port ++ ")/"
    ++ database ++ "?charset=utf8mb4&autocommit=true&parseTime=True"

/-- The MySQL DSN built by `NewDBStoreCharset` (caller-chosen charset). -/
def mysqlDsnCharset (host : String) (port : Int)
    (database username password charset : String) : String :=
  username ++ ":" ++ password ++ "@tcp(" ++ host ++ ":" ++ toString port ++ ")/"
    ++ database ++ "?charset=" ++ charset ++ "&autocommit=true&parseTime=True"

/-- The SQL-Server DSN built by both factories. -/
def mssqlDsn (host : String) (port : Int) (database username password : String) :
    String :=
  "server=" ++ host ++ ";user id=" ++ username ++ ";password=" ++ password
    ++ ";port=" ++ toString port ++ ";database=" ++ database

/-- `sql.Open`, as the factories see it: given the (original-case) driver
name and the DSN, the environment either hands back a pool handle or an
opaque failure code. -/
abbrev OpenFn := String → String → Except Nat SqlDB

/-- `strings.ToLower` as applied by the factories, modelled as
character-wise lowering (the driver identifiers the switch matches are
ASCII, where this agrees with Go's Unicode-aware folding). -/
def goToLower (s : String) : String :=
  String.mk (s.data.map Char.toLower)

/-- `NewDBStore` from db.go: switches on `strings.ToLower(driver)`
(modelled by `goToLower`) to build the DSN, fails with the
unsupported-driver error on any other identifier, then calls `sql.Open`
with the original driver string and returns the store with debug off and
a zero slow-query threshold. -/
def NewDBStore (driver host : String) (port : Int)
    (database username password : String) (openFn : OpenFn) :
    Except FactoryErr DBStore :=
  let dl := goToLower driver
  if dl = "mysql" then
    match openFn driver (mysqlDsn host port database username password) with
    | Except.error n => Except.error (FactoryErr.openFailed n)
    | Except.ok db => Except.ok { DB := some db, debug := false, slowlog := 0 }
  else if dl = "mssql" then
    match openFn driver (mssqlDsn host port database username password) with
    | Except.error n => Except.error (FactoryErr.openFailed n)
    | Except.ok db => Except.ok { DB := some db, debug := false, slowlog := 0 }
  else Except.error (FactoryErr.unsupportedDriver driver)

/-- `NewDBStoreCharset` from db.go: as `NewDBStore`, but the MySQL DSN
uses the given charset, defaulting to `utf8` when it is empty. -/
def NewDBStoreCharset (driver host : String) (port : Int)
    (database username password charset : String) (openFn : OpenFn) :
    Except FactoryErr DBStore :=
  let dl := goToLower driver
  if dl = "mysql" then
    let cs := if charset = "" then "utf8" else charset
    match openFn driver (mysqlDsnCharset host port database username password cs) with
    | Except.error n => Except.error (FactoryErr.openFailed n)
    | Except.ok db => Except.ok { DB := some db, debug := false, slowlog := 0 }
  else if dl = "mssql" then
    match openFn driver (mssqlDsn host port database username password) with
    | Except.error n => Except.error (FactoryErr.openFailed n)
    | Except.ok db => Except.ok { DB := some db, debug := false, slowlog := 0 }
  else Except.error (FactoryErr.unsupportedDriver driver)

/-- A fresh store over a healthy pool, debug off, threshold unset — the
state `NewDBStore` returns on success. -/
def exampleStore : DBStore :=
  { DB := some { closeErr := none }, debug := false, slowlog := 0 }

/-- A live (not cancelled, within deadline) context value. -/
def exampleCtxLive : OptCtx :=
  some { done := false, doneErr := GoError.canceled }

/-- A context value that has been cancelled. -/
def exampleCtxDone : OptCtx :=
  some { done := true, doneErr := GoError.canceled }

/-- A minimal `DB`-interface implementation whose state remembers the
last argument handed to its `SetError`, used to observe whether a
decorator forwards `SetError` to the executor it wraps. -/
def recImpl : DBImpl GoErr Unit Unit :=
  { query := fun s _ _ => (s, (), none)
    exec := fun s _ _ => (s, (), none)
    setError := fun _ e => e }

/-- An `sql.Open` environment that always hands back a healthy pool. -/
def openOk : OpenFn := fun _ _ => Except.ok { closeErr := none }

/-- Commit marks the underlying transaction done (or it already was). -/
theorem SqlTx.commit_fst_done (t : SqlTx) : (SqlTx.commit t).1.done = true := by
  by_cases h : t.done <;> simp [SqlTx.commit, h]

/-- Rollback marks the underlying transaction done (or it already was). -/
theorem SqlTx.rollback_fst_done (t : SqlTx) : (SqlTx.rollback t).1.done = true := by
  by_cases h : t.done <;> simp [SqlTx.rollback, h]

/-- On a done transaction, commit is refused with `ErrTxDone`. -/
theorem SqlTx.commit_of_done (t : SqlTx) (h : t.done = true) :
    SqlTx.commit t = (t, some GoError.errTxDone) := by
  simp [SqlTx.commit, h]

/-- On a done transaction, rollback is refused with `ErrTxDone`. -/
theorem SqlTx.rollback_of_done (t : SqlTx) (h : t.done = true) :
    SqlTx.rollback t = (t, some GoError.errTxDone) := by
  simp [SqlTx.rollback, h]

/-- The context check phase of `Close` leaves the underlying transaction,
the row counter and the context untouched; only `err` may change. -/
theorem closeErrCheck_parts (tx : DBTx) :
    (DBTx.closeErrCheck tx).tx = tx.tx ∧
    (DBTx.closeErrCheck tx).rowsAffected = tx.rowsAffected ∧
    (DBTx.closeErrCheck tx).Ctx = tx.Ctx := by
  rcases h : tx.Ctx with _ | c <;> simp [DBTx.closeErrCheck, h]
  by_cases hd : c.done <;> simp [hd, h]

/-- With a done context attached, the context check records the context's
error. -/
theorem closeErrCheck_err_of_ctxDone (tx : DBTx) (c : GoContext)
    (hc : tx.Ctx = some c) (hd : c.done = true) :
    (DBTx.closeErrCheck tx).err = some c.doneErr := by
  simp [DBTx.closeErrCheck, hc, hd, GoContext.err]

/-- With no done context attached, the context check leaves `err` alone. -/
theorem closeErrCheck_err_of_not_done (tx : DBTx) (h : ctxIsDone tx.Ctx = false) :
    (DBTx.closeErrCheck tx).err = tx.err := by
  rcases hc : tx.Ctx with _ | c <;> simp [DBTx.closeErrCheck, hc]
  rw [hc] at h
  simp [ctxIsDone] at h
  simp [h]

/-- `Close` always leaves the underlying transaction done. -/
theorem close_tx_done (tx : DBTx) : (DBTx.Close tx).1.tx.done = true := by
  by_cases h : (DBTx.closeErrCheck tx).err.isSome <;>
    simp [DBTx.Close, h, SqlTx.commit_fst_done, SqlTx.rollback_fst_done]

/-- `Close` never touches the row counter. -/
theorem close_rowsAffected (tx : DBTx) :
    (DBTx.Close tx).1.rowsAffected = tx.rowsAffected := by
  by_cases h : (DBTx.closeErrCheck tx).err.isSome <;>
    simp [DBTx.Close, h, (closeErrCheck_parts tx).2.1]

/-- On an open transaction with a recorded error or a done context,
`Close` performs exactly one rollback. -/
theorem close_rolls_back (tx : DBTx) (hd : tx.tx.done = false)
    (h : ctxIsDone tx.Ctx = true ∨ tx.err ≠ none) :
    (DBTx.Close tx).1.tx.finalOps = tx.tx.finalOps ++ [TxOp.rolledBack] := by
  have htx : (DBTx.closeErrCheck tx).tx = tx.tx := (closeErrCheck_parts tx).1
  have herr : (DBTx.closeErrCheck tx).err.isSome = true := by
    by_cases hcd : ctxIsDone tx.Ctx = true
    · rcases hc : tx.Ctx with _ | c
      · rw [hc] at hcd; simp [ctxIsDone] at hcd
      · rw [hc] at hcd
        simp only [ctxIsDone] at hcd
        rw [closeErrCheck_err_of_ctxDone tx c hc hcd]
        rfl
    · have hcd2 : ctxIsDone tx.Ctx = false := by simpa using hcd
      rcases h with h | h
      · exact absurd h hcd
      · rw [closeErrCheck_err_of_not_done tx hcd2]
        exact Option.isSome_iff_ne_none.mpr h
  simp only [DBTx.Close, herr, if_true]
  rw [htx]
  simp [SqlTx.rollback, hd]

/-- On an open transaction with no recorded error and no done context,
`Close` performs exactly one commit, reporting nil. -/
theorem close_commits (tx : DBTx) (hd : tx.tx.done = false)
    (hc : ctxIsDone tx.Ctx = false) (he : tx.err = none) :
    (DBTx.Close tx).1.tx.finalOps = tx.tx.finalOps ++ [TxOp.committed] ∧
    (DBTx.Close tx).2 = none := by
  have htx : (DBTx.closeErrCheck tx).tx = tx.tx := (closeErrCheck_parts tx).1
  have herr : (DBTx.closeErrCheck tx).err = none := by
    rw [closeErrCheck_err_of_not_done tx hc]; exact he
  simp only [DBTx.Close, herr, Option.isSome_none, Bool.false_eq_true, if_false]
  rw [htx]
  simp [SqlTx.commit, hd]

/-- On a done (already closed) underlying transaction, `Close` is
refused by the transaction handle: the state is unchanged and
`ErrTxDone` is reported. -/
theorem close_of_done (tx : DBTx) (hd : tx.tx.done = true) :
    (DBTx.Close tx).1.tx = tx.tx ∧ (DBTx.Close tx).2 = some GoError.errTxDone := by
  have htx : (DBTx.closeErrCheck tx).tx = tx.tx := (closeErrCheck_parts tx).1
  by_cases h : (DBTx.closeErrCheck tx).err.isSome <;>
    simp [DBTx.Close, h, htx, SqlTx.rollback, SqlTx.commit, hd]

/-- No caller-visible operation other than `Close` touches the
underlying `sql.Tx`. -/
theorem step_tx_eq (tx : DBTx) (ev : TxEvent) : (DBTx.step tx ev).tx = tx.tx := by
  cases ev <;> rcases h : tx.Ctx with _ | c <;>
    simp [DBTx.step, DBTx.Query, DBTx.Exec, DBTx.SetError, DBTx.SetContext, h]

/-- No caller-visible operation other than `Close` touches the row
counter. -/
theorem step_rowsAffected (tx : DBTx) (ev : TxEvent) :
    (DBTx.step tx ev).rowsAffected = tx.rowsAffected := by
  cases ev <;> rcases h : tx.Ctx with _ | c <;>
    simp [DBTx.step, DBTx.Query, DBTx.Exec, DBTx.SetError, DBTx.SetContext, h]

/-- A whole operation sequence leaves the underlying `sql.Tx` as it
was. -/
theorem run_tx_eq (evs : List TxEvent) (tx : DBTx) :
    (DBTx.run tx evs).tx = tx.tx := by
  induction evs generalizing tx with
  | nil => rfl
  | cons ev rest ih =>
    have hr : DBTx.run tx (ev :: rest) = DBTx.run (DBTx.step tx ev) rest := rfl
    rw [hr, ih, step_tx_eq]

/-- A whole operation sequence leaves the row counter as it was. -/
theorem run_rowsAffected (evs : List TxEvent) (tx : DBTx) :
    (DBTx.run tx evs).rowsAffected = tx.rowsAffected := by
  induction evs generalizing tx with
  | nil => rfl
  | cons ev rest ih =>
    have hr : DBTx.run tx (ev :: rest) = DBTx.run (DBTx.step tx ev) rest := rfl
    rw [hr, ih, step_rowsAffected]

/-- One error-free operation on an open, error-free transaction leaves
the recorded error nil. -/
theorem step_ok_err (tx : DBTx) (ev : TxEvent) (he : tx.err = none)
    (hd : tx.tx.done = false) (hok : ev.recordsNoError = true) :
    (DBTx.step tx ev).err = none := by
  cases ev with
  | query s d r =>
    have hr : r = none := by
      simpa [TxEvent.recordsNoError, Option.isNone_iff_eq_none] using hok
    rcases h : tx.Ctx with _ | c <;>
      simp [DBTx.step, DBTx.Query, SqlTx.call, h, hd, hr]
  | exec s d r =>
    have hr : r = none := by
      simpa [TxEvent.recordsNoError, Option.isNone_iff_eq_none] using hok
    rcases h : tx.Ctx with _ | c <;>
      simp [DBTx.step, DBTx.Exec, SqlTx.call, h, hd, hr]
  | setError e =>
    have hr : e = none := by
      simpa [TxEvent.recordsNoError, Option.isNone_iff_eq_none] using hok
    simp [DBTx.step, DBTx.SetError, hr]
  | setContext c =>
    simpa [DBTx.step, DBTx.SetContext] using he

/-- An error-free operation sequence on an open, error-free transaction
leaves the recorded error nil. -/
theorem run_ok_err (evs : List TxEvent) (tx : DBTx) (he : tx.err = none)
    (hd : tx.tx.done = false) (hok : ∀ ev ∈ evs, ev.recordsNoError = true) :
    (DBTx.run tx evs).err = none := by
  induction evs generalizing tx with
  | nil => exact he
  | cons ev rest ih =>
    have hstep := step_ok_err tx ev he hd (hok ev (by simp))
    have hd2 : (DBTx.step tx ev).tx.done = false := by rw [step_tx_eq]; exact hd
    have hr : DBTx.run tx (ev :: rest) = DBTx.run (DBTx.step tx ev) rest := rfl
    rw [hr]
    exact ih (DBTx.step tx ev) hstep hd2 (fun e hme => hok e (by simp [hme]))

/-- On a done underlying transaction, a query is refused with
`ErrTxDone` before reaching the driver. -/
theorem query_err_of_done (tx : DBTx) (hd : tx.tx.done = true)
    (s : String) (d : Int) (r : GoErr) :
    (DBTx.Query tx s d r).err = some GoError.errTxDone := by
  rcases h : tx.Ctx with _ | c <;> simp [DBTx.Query, SqlTx.call, h, hd]

/-- On a done underlying transaction, an exec is refused with
`ErrTxDone` before reaching the driver. -/
theorem exec_err_of_done (tx : DBTx) (hd : tx.tx.done = true)
    (s : String) (d : Int) (r : GoErr) :
    (DBTx.Exec tx s d r).err = some GoError.errTxDone := by
  rcases h : tx.Ctx with _ | c <;> simp [DBTx.Exec, SqlTx.call, h, hd]

/-- The slow-log line appears in a call's emitted log exactly when the
threshold is positive and the measured span strictly exceeds it;
the debug line never counts as slow. -/
theorem hasSlow_policy (d : Bool) (sl dur : Int) (s : String) :
    hasSlow (debugLogLines d s ++ slowLogLines sl dur s) = true ↔
      sl > 0 ∧ dur > sl := by
  by_cases h1 : sl > 0 <;> by_cases h2 : dur > sl <;> cases d <;>
    simp [hasSlow, debugLogLines, slowLogLines, LogLine.isSlow, h1, h2]

/-- Claim C1 as stated is false on the code: in the sequence exec
(driver error), exec (success), the first call records `driverError 7`
— shown by the first conjunct — yet `Close` of the full sequence
commits, because the second call's success overwrote the recorded
error (`tx.err = err` keeps only the last call's error). -/
theorem c1_error_overwrite_close_commits_counterexample :
    (DBTx.run (DBStore.BeginTx exampleStore none)
        [TxEvent.exec "UPDATE a" 0 (some (GoError.driverError 7))]).err
      = some (GoError.driverError 7) ∧
    (DBTx.Close (DBTx.run (DBStore.BeginTx exampleStore none)
        [TxEvent.exec "UPDATE a" 0 (some (GoError.driverError 7)),
         TxEvent.exec "UPDATE b" 0 none])).1.tx.finalOps
      = [TxOp.committed] :=
  ⟨rfl, rfl⟩

/-- Claim C1, amended: on an open transaction, `Close` issues rollback
exactly when the context is attached and done or the currently recorded
(i.e. most recently written) error is non-nil; an error recorded by an
earlier call and overwritten by a later successful call does not force
rollback. -/
theorem c1_close_rolls_back_iff_current_error (tx : DBTx)
    (hd : tx.tx.done = false) :
    ((DBTx.Close tx).1.tx.finalOps = tx.tx.finalOps ++ [TxOp.rolledBack]) ↔
      (ctxIsDone tx.Ctx = true ∨ tx.err ≠ none) := by
  constructor
  · intro hfo
    by_contra hneg
    push_neg at hneg
    obtain ⟨hc, he⟩ := hneg
    have hc2 : ctxIsDone tx.Ctx = false := by simpa using hc
    have hcom := (close_commits tx hd hc2 he).1
    rw [hcom] at hfo
    have hlast := List.append_cancel_left hfo
    simp at hlast
  · exact close_rolls_back tx hd

/-- Witness for the amended C1: a transaction with a recorded error and
no context is rolled back by `Close`. -/
theorem c1_close_rolls_back_iff_current_error_witness :
    (DBTx.Close (DBTx.SetError (DBStore.BeginTx exampleStore none)
        (some (GoError.driverError 9)))).1.tx.finalOps = [TxOp.rolledBack] :=
  (c1_close_rolls_back_iff_current_error _ rfl).mpr (Or.inr (by decide))

/-- Claim C2: for every sequence of calls on a fresh transaction in
which every call records no error (nil driver replies, nil `SetError`
arguments), if the context attached at close time is nil or not done,
`Close` performs exactly one commit. -/
theorem c2_all_successful_close_commits (store : DBStore) (ctx : OptCtx)
    (evs : List TxEvent)
    (hok : ∀ ev ∈ evs, ev.recordsNoError = true)
    (hctx : ctxIsDone (DBTx.run (DBStore.BeginTx store ctx) evs).Ctx = false) :
    (DBTx.Close (DBTx.run (DBStore.BeginTx store ctx) evs)).1.tx.finalOps
      = [TxOp.committed] := by
  have htx : (DBTx.run (DBStore.BeginTx store ctx) evs).tx
      = (DBStore.BeginTx store ctx).tx := run_tx_eq evs (DBStore.BeginTx store ctx)
  have hd : (DBTx.run (DBStore.BeginTx store ctx) evs).tx.done = false := by
    rw [htx]; rfl
  have he : (DBTx.run (DBStore.BeginTx store ctx) evs).err = none :=
    run_ok_err evs (DBStore.BeginTx store ctx) rfl rfl hok
  have hcom := (close_commits _ hd hctx he).1
  rw [hcom, htx]
  rfl

/-- Witness for C2: a successful query, a successful exec and a nil
`SetError` on a transaction with a live context end in a commit. -/
theorem c2_all_successful_close_commits_witness :
    (DBTx.Close (DBTx.run (DBStore.BeginTx exampleStore exampleCtxLive)
        [TxEvent.query "SELECT 1" 0 none, TxEvent.exec "UPDATE a" 0 none,
         TxEvent.setError none])).1.tx.finalOps = [TxOp.committed] :=
  c2_all_successful_close_commits exampleStore exampleCtxLive
    [TxEvent.query "SELECT 1" 0 none, TxEvent.exec "UPDATE a" 0 none,
     TxEvent.setError none] (by decide) rfl

/-- Claim C3: on an open transaction bound to a context that is done at
close time, `Close` performs exactly one rollback — whatever the
recorded error state — and the context's error replaces the recorded
error. -/
theorem c3_done_context_forces_rollback (tx : DBTx) (c : GoContext)
    (hc : tx.Ctx = some c) (hdone : c.done = true) (hd : tx.tx.done = false) :
    (DBTx.Close tx).1.tx.finalOps = tx.tx.finalOps ++ [TxOp.rolledBack] ∧
    (DBTx.Close tx).1.err = some c.doneErr := by
  refine ⟨close_rolls_back tx hd (Or.inl (by simp [ctxIsDone, hc, hdone])), ?_⟩
  have herr : (DBTx.closeErrCheck tx).err = some c.doneErr :=
    closeErrCheck_err_of_ctxDone tx c hc hdone
  have h1 : (DBTx.closeErrCheck tx).err.isSome = true := by rw [herr]; rfl
  simp only [DBTx.Close, h1, if_true]
  exact herr

/-- Witness for C3: a transaction whose every call succeeded but whose
context was cancelled is rolled back, and its final recorded error is
the context's `Canceled`. -/
theorem c3_done_context_forces_rollback_witness :
    (DBTx.Close (DBTx.run (DBStore.BeginTx exampleStore exampleCtxDone)
        [TxEvent.query "SELECT 1" 0 none])).1.tx.finalOps
      = [TxOp.rolledBack] ∧
    (DBTx.Close (DBTx.run (DBStore.BeginTx exampleStore exampleCtxDone)
        [TxEvent.query "SELECT 1" 0 none])).1.err = some GoError.canceled :=
  c3_done_context_forces_rollback _ { done := true, doneErr := GoError.canceled }
    rfl rfl rfl

/-- Claim C4 as stated is false on the code: on a store over a healthy
pool, the first `Close` succeeds and clears the handle, and the second
`Close` panics with a nil-pointer dereference — no `AlreadyClosedError`
(or any error value) is ever returned. -/
theorem c4_second_close_no_error_counterexample :
    DBStore.Close { DB := some { closeErr := none }, debug := false, slowlog := 0 }
      = CloseOutcome.ret { DB := none, debug := false, slowlog := 0 } none ∧
    DBStore.Close { DB := none, debug := false, slowlog := 0 }
      = CloseOutcome.nilPanic :=
  ⟨rfl, rfl⟩

/-- Claim C4, amended: after a first `Close` that returned nil, every
subsequent `Close` panics with a nil-pointer dereference (the handle was
cleared); in particular a second `Close` never returns success. -/
theorem c4_second_close_panics (s s2 : DBStore)
    (h : DBStore.Close s = CloseOutcome.ret s2 none) :
    DBStore.Close s2 = CloseOutcome.nilPanic := by
  rcases hdb : s.DB with _ | db <;> simp [DBStore.Close, hdb] at h
  rcases hce : db.closeErr with _ | e <;> simp [hce] at h
  rw [← h]
  rfl

/-- Witness for the amended C4: the concrete two-close run on a healthy
store ends in the nil-pointer panic. -/
theorem c4_second_close_panics_witness :
    DBStore.Close { DB := none, debug := false, slowlog := 0 }
      = CloseOutcome.nilPanic :=
  c4_second_close_panics
    { DB := some { closeErr := none }, debug := false, slowlog := 0 }
    { DB := none, debug := false, slowlog := 0 } rfl

/-- Claim C5: the tracing decorator is behavior-preserving: for every
wrapped executor, statement and argument list, `TracedDB.Query` and
`TracedDB.Exec` return the wrapped executor's result and error
unchanged, and each call opens exactly one span and finishes exactly one
span, on the success and the failure path alike. -/
theorem c5_traced_query_exec_transparent (σ ρ ε : Type) (impl : DBImpl σ ρ ε)
    (db : TracedDB σ) (sql : String) (args : List String) :
    ((TracedDB.Query impl db sql args).2.1
        = (impl.query db.state sql args).2.1 ∧
      (TracedDB.Query impl db sql args).2.2.1
        = (impl.query db.state sql args).2.2 ∧
      (List.filter SpanEvent.isStart
        (TracedDB.Query impl db sql args).2.2.2).length = 1 ∧
      (List.filter SpanEvent.isFinish
        (TracedDB.Query impl db sql args).2.2.2).length = 1) ∧
    ((TracedDB.Exec impl db sql args).2.1
        = (impl.exec db.state sql args).2.1 ∧
      (TracedDB.Exec impl db sql args).2.2.1
        = (impl.exec db.state sql args).2.2 ∧
      (List.filter SpanEvent.isStart
        (TracedDB.Exec impl db sql args).2.2.2).length = 1 ∧
      (List.filter SpanEvent.isFinish
        (TracedDB.Exec impl db sql args).2.2.2).length = 1) := by
  constructor
  · rcases hq : impl.query db.state sql args with ⟨s2, res, e⟩
    rcases e with _ | err <;>
      simp [TracedDB.Query, hq, logErrorToSpan, List.filter,
        SpanEvent.isStart, SpanEvent.isFinish]
  · rcases hq : impl.exec db.state sql args with ⟨s2, res, e⟩
    rcases e with _ | err <;>
      simp [TracedDB.Exec, hq, logErrorToSpan, List.filter,
        SpanEvent.isStart, SpanEvent.isFinish]

/-- Claim C6 as stated is false on the code: with a wrapped executor
whose `SetError` stores its argument in the state, `TracedDB.SetError`
leaves the wrapped state untouched (first conjunct) although a forward
would have stored the error (second conjunct); it also performs no
tracing action (third conjunct). -/
theorem c6_seterror_not_forwarded_counterexample :
    (TracedDB.SetError recImpl { state := none, ctx := none }
        (some (GoError.driverError 3))).1.state = none ∧
    DBImpl.setError recImpl none (some (GoError.driverError 3))
      = some (GoError.driverError 3) ∧
    (TracedDB.SetError recImpl { state := none, ctx := none }
        (some (GoError.driverError 3))).2 = [] :=
  ⟨rfl, rfl, rfl⟩

/-- Claim C6, amended: `SetError` on the decorator discards its
argument: the wrapped executor is left exactly as it was (its own
`SetError` is never invoked) and no tracing action is performed. -/
theorem c6_traced_seterror_discards (σ ρ ε : Type) (impl : DBImpl σ ρ ε)
    (db : TracedDB σ) (e : GoErr) :
    TracedDB.SetError impl db e = (db, []) :=
  rfl

/-- Claim C7: for every query/exec call on a store or a transaction, a
`SLOW:` line is emitted exactly when the configured threshold is
positive and the measured duration strictly exceeds it; with the
threshold at its zero default the line is never emitted. -/
theorem c7_slow_log_iff_threshold_exceeded (store : DBStore) (tx : DBTx)
    (sql : String) (dur : Int) (reply : GoErr) :
    (hasSlow (DBStore.Query store sql dur reply).logs = true ↔
      store.slowlog > 0 ∧ dur > store.slowlog) ∧
    (hasSlow (DBStore.Exec store sql dur reply).logs = true ↔
      store.slowlog > 0 ∧ dur > store.slowlog) ∧
    (hasSlow (DBTx.Query tx sql dur reply).logs = true ↔
      tx.slowlog > 0 ∧ dur > tx.slowlog) ∧
    (hasSlow (DBTx.Exec tx sql dur reply).logs = true ↔
      tx.slowlog > 0 ∧ dur > tx.slowlog) := by
  refine ⟨?_, ?_, ?_, ?_⟩
  · simpa [DBStore.Query] using hasSlow_policy store.debug store.slowlog dur sql
  · simpa [DBStore.Exec] using hasSlow_policy store.debug store.slowlog dur sql
  · rcases h : tx.Ctx with _ | c <;>
      simpa [DBTx.Query, h] using hasSlow_policy tx.debug tx.slowlog dur sql
  · rcases h : tx.Ctx with _ | c <;>
      simpa [DBTx.Exec, h] using hasSlow_policy tx.debug tx.slowlog dur sql

/-- Claim C8: `Close` is terminal and exactly-once: it leaves the
underlying transaction done; no later sequence of query/exec/set-error/
set-context operations changes that; a second `Close` performs no
further commit or rollback and reports `ErrTxDone`; and any query or
exec after a close is refused with `ErrTxDone`. -/
theorem c8_close_terminal (tx : DBTx) (evs : List TxEvent)
    (sql : String) (dur : Int) (reply : GoErr) :
    (DBTx.Close tx).1.tx.done = true ∧
    (DBTx.run (DBTx.Close tx).1 evs).tx = (DBTx.Close tx).1.tx ∧
    (DBTx.Close (DBTx.run (DBTx.Close tx).1 evs)).1.tx.finalOps
      = (DBTx.Close tx).1.tx.finalOps ∧
    (DBTx.Close (DBTx.run (DBTx.Close tx).1 evs)).2 = some GoError.errTxDone ∧
    (DBTx.Query (DBTx.run (DBTx.Close tx).1 evs) sql dur reply).err
      = some GoError.errTxDone ∧
    (DBTx.Exec (DBTx.run (DBTx.Close tx).1 evs) sql dur reply).err
      = some GoError.errTxDone := by
  have h1 := close_tx_done tx
  have h2 := run_tx_eq evs (DBTx.Close tx).1
  have hd : (DBTx.run (DBTx.Close tx).1 evs).tx.done = true := by
    rw [h2]; exact h1
  have h3 := close_of_done _ hd
  exact ⟨h1, h2, by rw [h3.1, h2], h3.2,
    query_err_of_done _ hd sql dur reply, exec_err_of_done _ hd sql dur reply⟩

/-- Claim C9: both factories reject every driver identifier that is not
`mysql` or `mssql` after case-folding with the unsupported-driver error
and return no handle; for identifiers that case-fold to `mysql` or
`mssql` the unsupported-driver branch is never taken, whatever
`sql.Open` does. -/
theorem c9_driver_switch (driver host : String) (port : Int)
    (database username password charset : String) (openFn : OpenFn) :
    (goToLower driver ≠ "mysql" → goToLower driver ≠ "mssql" →
      NewDBStore driver host port database username password openFn
        = Except.error (FactoryErr.unsupportedDriver driver) ∧
      NewDBStoreCharset driver host port database username password charset
          openFn
        = Except.error (FactoryErr.unsupportedDriver driver)) ∧
    (goToLower driver = "mysql" ∨ goToLower driver = "mssql" →
      ∀ d2 : String,
        NewDBStore driver host port database username password openFn
          ≠ Except.error (FactoryErr.unsupportedDriver d2) ∧
        NewDBStoreCharset driver host port database username password charset
            openFn
          ≠ Except.error (FactoryErr.unsupportedDriver d2)) := by
  constructor
  · intro h1 h2
    constructor <;> simp [NewDBStore, NewDBStoreCharset, h1, h2]
  · intro h d2
    rcases h with h | h
    · constructor
      · simp only [NewDBStore, if_pos h]
        rcases hOpen : openFn driver
            (mysqlDsn host port database username password) with n | db <;>
          simp [hOpen]
      · simp only [NewDBStoreCharset, if_pos h]
        rcases hOpen : openFn driver
            (mysqlDsnCharset host port database username password
              (if charset = "" then "utf8" else charset)) with n | db <;>
          simp [hOpen]
    · have hne : goToLower driver ≠ "mysql" := by rw [h]; decide
      constructor
      · simp only [NewDBStore, if_neg hne, if_pos h]
        rcases hOpen : openFn driver
            (mssqlDsn host port database username password) with n | db <;>
          simp [hOpen]
      · simp only [NewDBStoreCharset, if_neg hne, if_pos h]
        rcases hOpen : openFn driver
            (mssqlDsn host port database username password) with n | db <;>
          simp [hOpen]

/-- Witness for C9: `oracle` is rejected with the unsupported-driver
error, while the mixed-case `MsSQL` never reaches that branch. -/
theorem c9_driver_switch_witness :
    NewDBStore "oracle" "h" 1 "d" "u" "p" openOk
      = Except.error (FactoryErr.unsupportedDriver "oracle") ∧
    NewDBStoreCharset "MsSQL" "h" 1 "d" "u" "p" "" openOk
      ≠ Except.error (FactoryErr.unsupportedDriver "x") :=
  ⟨((c9_driver_switch "oracle" "h" 1 "d" "u" "p" "" openOk).1
      (by decide) (by decide)).1,
    (((c9_driver_switch "MsSQL" "h" 1 "d" "u" "p" "" openOk).2
      (Or.inr (by decide))) "x").2⟩

/-- Claim C10: the `rowsAffected` field is written by nothing: every
query/exec/set-error/set-context step and every close preserves it, a
fresh transaction starts it at zero, and it is still zero after any
operation sequence on a fresh transaction. -/
theorem c10_rowsAffected_constant_zero (store : DBStore) (ctx : OptCtx)
    (evs : List TxEvent) (tx : DBTx) (ev : TxEvent) :
    (DBTx.step tx ev).rowsAffected = tx.rowsAffected ∧
    (DBTx.Close tx).1.rowsAffected = tx.rowsAffected ∧
    (DBStore.BeginTx store ctx).rowsAffected = 0 ∧
    (DBTx.run (DBStore.BeginTx store ctx) evs).rowsAffected = 0 :=
  ⟨step_rowsAffected tx ev, close_rowsAffected tx, rfl,
    by rw [run_rowsAffected]; rfl⟩

end DbOrm
